import Mathlib

/-!
Shallow embedding of the acquisition/broadcast pipeline of the
wifi-temperature-broadcast sketch (WiFiTemperatureBroadcast.ino and the
revised routines in src/unnamed/part_000..part_005).

Doubles are modelled as rationals with an explicit NaN adjoined (`D`):
the sketch only ever produces NaN through the out-of-range sentinel of
`lineariseTemperature` and through failed sensor reads, and IEEE NaN
absorbs through the additions and the division used here.  The math
library exponential called on the positive cold-junction branch is an
external dependency of the sketch and is passed in as a function
parameter `e`.  LED flashing and serial logging are status indication,
out of scope; the datagram transport is abstracted by a `Net` record of
the outcomes the WiFiUDP calls would return.
-/

/-- A double: either NaN or a rational value. -/
inductive D where
  | nan : D
  | num : ℚ → D
deriving DecidableEq

def D.isNan : D → Bool
  | .nan => true
  | .num _ => false

/-- Extract the rational value; only used after an isNan test, as in the sketch. -/
def D.toQ : D → ℚ
  | .nan => 0
  | .num q => q

/-- IEEE addition restricted to the values the sketch produces: NaN absorbs. -/
def D.add : D → D → D
  | .num a, .num b => .num (a + b)
  | _, _ => .nan

/-- IEEE division restricted likewise; a zero divisor does not yield a number. -/
def D.div : D → D → D
  | .num a, .num b => if b = 0 then .nan else .num (a / b)
  | _, _ => .nan

/-- The accumulation loop of broadcastReadings: broadcastTemperatureC starts
at 0.0 and the selected prefix of the buffer is added in. -/
def dSum (l : List D) : D := l.foldl D.add (D.num 0)

/-! ## Linearisation engine (lineariseTemperature) -/

/-- NIST type-K coefficients for a non-negative cold junction (degree 9). -/
def cPos : List ℚ :=
  [-0.176004136860e-1, 0.389212049750e-1, 0.185587700320e-4,
   -0.994575928740e-7, 0.318409457190e-9, -0.560728448890e-12,
   0.560750590590e-15, -0.320207200030e-18, 0.971511471520e-22,
   -0.121047212750e-25]

/-- NIST type-K coefficients for a negative cold junction (degree 10). -/
def cNeg : List ℚ :=
  [0, 0.394501280250e-1, 0.236223735980e-4, -0.328589067840e-6,
   -0.499048287770e-8, -0.675090591730e-10, -0.574103274280e-12,
   -0.310888728940e-14, -0.104516093650e-16, -0.198892668780e-19,
   -0.163226974860e-22]

/-- Exponential correction coefficients (positive branch only). -/
def a0 : ℚ := 0.118597600000
def a1 : ℚ := -0.118343200000e-3
def a2 : ℚ := 0.126968600000e3

/-- Inverse coefficients, totalVoltage below 0 mV (−200..0 °C table). -/
def dNeg : List ℚ :=
  [0, 2.5173462e1, -1.1662878, -1.0833638, -0.89773540,
   -0.37342377, -0.86632643e-1, -0.10450598e-1, -0.51920577e-3, 0]

/-- Inverse coefficients, totalVoltage in 0..20.644 mV (0..500 °C table). -/
def dMid : List ℚ :=
  [0, 2.508355e1, 7.860106e-2, -2.503131e-1, 8.315270e-2,
   -1.228034e-2, 9.804036e-4, -4.413030e-5, 1.057734e-6, -1.052755e-8]

/-- Inverse coefficients, totalVoltage in 20.644..54.886 mV (500..1372 °C table). -/
def dHigh : List ℚ :=
  [-1.318058e2, 4.830222e1, -1.646031, 5.464731e-2, -9.650715e-4,
   8.802193e-6, -3.110810e-8, 0, 0, 0]

/-- The for-loops of lineariseTemperature, accumulating c[i] * pow(t, i)
for i counting up from the given index. -/
def polyEvalFrom (t : ℚ) : ℕ → List ℚ → ℚ
  | _, [] => 0
  | i, c :: cs => c * t ^ i + polyEvalFrom t (i + 1) cs

/-- Sum of c[i] * pow(t, i) over the whole coefficient table. -/
def polyEval (cs : List ℚ) (t : ℚ) : ℚ := polyEvalFrom t 0 cs

/-- Steps 1 and 2: (Tr − Tc) * 0.041276 mV. -/
def thermocoupleVoltage (Tc Tr : ℚ) : ℚ := (Tr - Tc) * 0.041276

/-- Step 3: cold-junction equivalent voltage; `e` is the library exp. -/
def internalVoltage (e : ℚ → ℚ) (Tc : ℚ) : ℚ :=
  if 0 ≤ Tc then polyEval cPos Tc + a0 * e (a1 * (Tc - a2) ^ 2)
  else polyEval cNeg Tc

/-- Step 4: summed voltage. -/
def totalVoltage (e : ℚ → ℚ) (Tc Tr : ℚ) : ℚ :=
  thermocoupleVoltage Tc Tr + internalVoltage e Tc

/-- Step 5 of lineariseTemperature: the range-selected inverse polynomials,
with NAN as the out-of-range value of the final else branch. -/
def invertVoltage (v : ℚ) : D :=
  if v < 0 then D.num (polyEval dNeg v)
  else if v < 20.644 then D.num (polyEval dMid v)
  else if v < 54.886 then D.num (polyEval dHigh v)
  else D.nan

/-- lineariseTemperature(coldJunction, external): steps 1–5. -/
def lineariseTemperature (e : ℚ → ℚ) (Tc Tr : ℚ) : D :=
  invertVoltage (totalVoltage e Tc Tr)

/-! ## Rolling average accumulator and state machine state -/

/-- ROLLING_AVERAGE_COUNT = (int)(((8 / 2) / 0.25) * 1.25): 8/2 = 4 in int
arithmetic, 4/0.25 = 16.0, 16.0 * 1.25 = 20.0, cast to int = 20. -/
def ROLLING_AVERAGE_COUNT : ℕ := 20

/-- DBL_MAX, the initial value of minimumInternal. -/
def DBL_MAX : ℚ := (2 ^ 53 - 1) * 2 ^ 971

/-- DBL_MIN (smallest positive normal double), the initial value of
maximumInternal. -/
def DBL_MIN : ℚ := 1 / 2 ^ 1022

/-- The module-level mutable variables of the sketch that the acquisition
and broadcast routines touch. -/
structure SensorState where
  celsiusRollingAverage : List D
  rollingAveragePosition : ℕ
  indexRolledOver : Bool
  minimumInternal : ℚ
  maximumInternal : ℚ
  probeReadingError : Bool
  probeReadingErrorCount : ℕ
  rdpEpoch : ℕ
  gotRDPServer : Bool
  shouldReadProbes : Bool
  shouldBroadcast : Bool
  haveBroadcastSinceRead : Bool
deriving DecidableEq

/-- The globals as initialised at boot (rdpEpoch is 2 after the SYN of
setup consumed epoch 1); gotRDPServer as left by a failed handshake. -/
def initialState : SensorState :=
  { celsiusRollingAverage := List.replicate ROLLING_AVERAGE_COUNT (D.num 0)
    rollingAveragePosition := 0
    indexRolledOver := false
    minimumInternal := DBL_MAX
    maximumInternal := DBL_MIN
    probeReadingError := false
    probeReadingErrorCount := 0
    rdpEpoch := 2
    gotRDPServer := false
    shouldReadProbes := false
    shouldBroadcast := false
    haveBroadcastSinceRead := false }

/-- readProbes (part_002 lines 380–426 and the .ino lines 383–432): the two
sensor readings come in as doubles; a NaN on either sets the error flag and
returns, otherwise min/max are tracked, an overdue position is wrapped with
the rollover flag raised, the linearised reading is stored and the position
advanced. -/
def readProbes (e : ℚ → ℚ) (internal celsius : D) (s : SensorState) : SensorState :=
  if internal.isNan || celsius.isNan then
    { s with probeReadingError := true
             probeReadingErrorCount := s.probeReadingErrorCount + 1 }
  else
    let ti := internal.toQ
    let s1 := { s with probeReadingError := false
                       minimumInternal := if ti < s.minimumInternal then ti else s.minimumInternal
                       maximumInternal := if ti > s.maximumInternal then ti else s.maximumInternal }
    let s2 := if ROLLING_AVERAGE_COUNT ≤ s1.rollingAveragePosition then
        { s1 with rollingAveragePosition := 0, indexRolledOver := true }
      else s1
    let newBuf := s2.celsiusRollingAverage.set s2.rollingAveragePosition
      (lineariseTemperature e ti celsius.toQ)
    let s3 := { s2 with celsiusRollingAverage := newBuf }
    { s3 with rollingAveragePosition := s3.rollingAveragePosition + 1 }

/-! ## Broadcast protocol -/

/-- Outcomes the WiFi/UDP transport would report during one drain:
WiFi.status() == WL_CONNECTED, and the beginPacket/endPacket results
(== 1 is success) for the primary (udp/brdUdp) and Roastmaster (rdpUdp)
destinations. -/
structure Net where
  wifiConnected : Bool
  udpBegin : Bool
  udpEnd : Bool
  rdpBegin : Bool
  rdpEnd : Bool
deriving DecidableEq

/-- The two broadcast destinations: the local-network broadcast address with
the self-describing JSON payload, and the Roastmaster RDP server. -/
inductive Dest where
  | primary : Dest
  | rdp : Dest
deriving DecidableEq

/-- One datagram handed to the transport: destination (which also fixes
which of the two encodings it carries), the averaged value it embeds, and
whether its endPacket reported success. -/
structure Send where
  dest : Dest
  value : D
  ok : Bool
deriving DecidableEq

/-- What one call of broadcastReadings leaves behind: the updated globals,
the averaged value it computed (none when it refused), and the datagrams
written to the transport. -/
structure BroadcastResult where
  state : SensorState
  value : Option D
  sends : List Send
deriving DecidableEq

/-- The refusal guard of broadcastReadings: nothing recorded yet, or the
most recent probe read failed. -/
def refuseGuard (s : SensorState) : Bool :=
  (s.rollingAveragePosition == 0 && !s.indexRolledOver) || s.probeReadingError

/-- endOfIndex: the whole array when rolled over, else up to the position. -/
def endOfIndexOf (s : SensorState) : ℕ :=
  if s.indexRolledOver then ROLLING_AVERAGE_COUNT else s.rollingAveragePosition

/-- broadcastReadings as revised in part_004: refuse on the guard; otherwise
average the selected prefix, format both messages (the RDP formatting
increments the epoch), and — when WiFi is up — send the self-describing
payload to the primary destination and, independently and only when
gotRDPServer, the RDP payload to the Roastmaster address; a beginPacket
failure abandons that destination only, an endPacket failure is only
reported.  The position and rollover flag are reset at the end. -/
def broadcastReadings (net : Net) (s : SensorState) : BroadcastResult :=
  if refuseGuard s then ⟨s, none, []⟩
  else
    let eoi := endOfIndexOf s
    let v := D.div (dSum (s.celsiusRollingAverage.take eoi)) (D.num (eoi : ℚ))
    let sends :=
      if net.wifiConnected then
        (if net.udpBegin then [⟨Dest.primary, v, net.udpEnd⟩] else [])
          ++ (if s.gotRDPServer then
                (if net.rdpBegin then [⟨Dest.rdp, v, net.rdpEnd⟩] else [])
              else [])
      else []
    ⟨{ s with rdpEpoch := s.rdpEpoch + 1
              rollingAveragePosition := 0
              indexRolledOver := false }, some v, sends⟩

/-- broadcastReadings as in WiFiTemperatureBroadcast.ino lines 434–522 (and
part_005): identical guard, averaging and reset, but the transmission step
requires `udp.beginPacket(..) == 1 && (gotRDPServer && rdpUdp.beginPacket(..) == 1)`
in a single condition before any write, so both datagrams are written
together or not at all. -/
def broadcastReadings_ino (net : Net) (s : SensorState) : BroadcastResult :=
  if refuseGuard s then ⟨s, none, []⟩
  else
    let eoi := endOfIndexOf s
    let v := D.div (dSum (s.celsiusRollingAverage.take eoi)) (D.num (eoi : ℚ))
    let sends :=
      if net.wifiConnected then
        if net.udpBegin && (s.gotRDPServer && net.rdpBegin) then
          [⟨Dest.primary, v, net.udpEnd⟩, ⟨Dest.rdp, v, net.rdpEnd⟩]
        else []
      else []
    ⟨{ s with rdpEpoch := s.rdpEpoch + 1
              rollingAveragePosition := 0
              indexRolledOver := false }, some v, sends⟩

/-! ## Startup handshake listen loop -/

/-- The configured maximum of ACK listen attempts. -/
def rdpMaxAckListenAttempts : ℕ := 10

/-- RDPEventType_ACK = 2 in the shared enum (SYN = 1, ACK, Temperature, ..). -/
def RDPEventType_ACK : ℕ := 2

/-- A received handshake datagram as the sketch sees it after
jsonACKBuffer.parseObject: either not valid JSON, or valid with the value
extracted from RPPayload[0].RPEventType (0 when the field is absent). -/
inductive Datagram where
  | malformed : Datagram
  | wellFormed : ℕ → Datagram
deriving DecidableEq

/-- The test applied to a parsed datagram: well-formed and the first
event type equals RDPEventType_ACK. -/
def isAckDatagram : Datagram → Bool
  | .malformed => false
  | .wellFormed t => t == RDPEventType_ACK

/-- The ACK listen loop of setup (.ino lines 313–348, part_002 282–317),
driven by what each rdpUdp.parsePacket poll returns (an exhausted list
means no further packet ever arrives).  Mirrors
`while (rdpAckRetries <= rdpMaxAckListenAttempts)`: on a received packet
the loop processes it and breaks unconditionally; on no packet it sleeps
connectDelay, doubles it and increments the retry counter.  Returns
gotRDPServer and the list of delays slept. -/
def ackListenFrom (retries connectDelay : ℕ) (polls : List (Option Datagram)) :
    Bool × List ℕ :=
  if _h : retries ≤ rdpMaxAckListenAttempts then
    match polls with
    | some d :: _ => (isAckDatagram d, [])
    | none :: rest =>
      let r := ackListenFrom (retries + 1) (connectDelay + connectDelay) rest
      (r.1, connectDelay :: r.2)
    | [] =>
      let r := ackListenFrom (retries + 1) (connectDelay + connectDelay) []
      (r.1, connectDelay :: r.2)
  else (false, [])
termination_by rdpMaxAckListenAttempts + 1 - retries
decreasing_by all_goals omega

/-- The listen loop as entered from setup: connectDelay = 5, retries = 0. -/
def ackListen (polls : List (Option Datagram)) : Bool × List ℕ :=
  ackListenFrom 0 5 polls

/-! ## Main loop and command-and-control trigger -/

/-- The two recognised command strings; anything else (including malformed
JSON) falls through both comparisons. -/
inductive Cmd where
  | cmdRead : Cmd
  | cmdBroadcast : Cmd
  | cmdOther : Cmd
deriving DecidableEq

/-- checkForCommandAndControlMessage (part_000): a readProbes command arms
acquisition and clears the broadcast-done flag, a broadcastReadings command
arms broadcast; no packet or an unrecognised one changes nothing. -/
def checkCnC (c : Option Cmd) (s : SensorState) : SensorState :=
  match c with
  | some Cmd.cmdRead =>
    { s with shouldReadProbes := true
             shouldBroadcast := false
             haveBroadcastSinceRead := false }
  | some Cmd.cmdBroadcast =>
    { s with shouldReadProbes := false
             shouldBroadcast := true }
  | _ => s

/-- Everything one loop() iteration consumes: the command packet (if any),
the two thermocouple readings and the transport outcomes. -/
structure LoopInput where
  cmd : Option Cmd
  internal : D
  celsius : D
  net : Net
deriving DecidableEq

/-- A quiet iteration: no command, failed sensor reads, transport up. -/
def noInput : LoopInput := ⟨none, D.nan, D.nan, ⟨true, true, true, true, true⟩⟩

/-- One iteration of loop() (part_002 lines 338–357): poll command and
control, then — broadcast prioritised — run broadcastReadings when armed
and not yet done since the last read, clearing both requests and latching
haveBroadcastSinceRead; otherwise run readProbes when armed.  Returns the
new state and whether this iteration invoked broadcastReadings. -/
def loopStep (e : ℚ → ℚ) (inp : LoopInput) (s : SensorState) : SensorState × Bool :=
  let s1 := checkCnC inp.cmd s
  if s1.shouldBroadcast && !s1.haveBroadcastSinceRead then
    let s2 := (broadcastReadings inp.net s1).state
    ({ s2 with shouldBroadcast := false
               shouldReadProbes := false
               haveBroadcastSinceRead := true }, true)
  else
    (if s1.shouldReadProbes then readProbes e inp.internal inp.celsius s1 else s1, false)

/-- Iterated loop(): final state and the per-iteration broadcast flags. -/
def loopRun (e : ℚ → ℚ) : List LoopInput → SensorState → SensorState × List Bool
  | [], s => (s, [])
  | inp :: rest, s =>
    let r := loopStep e inp s
    let rr := loopRun e rest r.1
    (rr.1, r.2 :: rr.2)

/-- k acquisition ticks with valid (never NaN) readings f 0, f 1, …, no
drain in between. -/
def pushIter (e : ℚ → ℚ) (f : ℕ → ℚ × ℚ) : ℕ → SensorState → SensorState
  | 0, s => s
  | k + 1, s => readProbes e (D.num (f k).1) (D.num (f k).2) (pushIter e f k s)

/-! ## Concrete fixtures used by the closed theorems -/

/-- Transport where every operation succeeds. -/
def netAllOk : Net := ⟨true, true, true, true, true⟩

/-- Transport where WiFi.status() is not WL_CONNECTED. -/
def netDown : Net := ⟨false, true, true, true, true⟩

/-- Transport where only the Roastmaster beginPacket fails. -/
def netRdpBeginFail : Net := ⟨true, true, true, false, true⟩

/-- A drain-ready state: the readings 20, 22, 24 have been pushed since the
last drain, no rollover, no pending sensor error, no RDP server. -/
def s22 : SensorState :=
  { initialState with
      celsiusRollingAverage :=
        ([20, 22, 24] ++ List.replicate 17 0).map D.num
      rollingAveragePosition := 3 }

/-- The identically filled state after a successful handshake. -/
def s22rdp : SensorState := { s22 with gotRDPServer := true }

/-- A loop iteration carrying a readProbes command (sensor unreadable,
transport up). -/
def iRead : LoopInput := ⟨some Cmd.cmdRead, D.nan, D.nan, netAllOk⟩

/-- A loop iteration carrying a broadcastReadings command. -/
def iB : LoopInput := ⟨some Cmd.cmdBroadcast, D.nan, D.nan, netAllOk⟩

/-! ## Helper lemmas -/

/-- Folding D.add from a numeric accumulator over numeric values is the
rational sum. -/
theorem foldl_dadd_map_num (l : List ℚ) : ∀ a : ℚ,
    (l.map D.num).foldl D.add (D.num a) = D.num (a + l.sum) := by
  induction l with
  | nil => intro a; simp
  | cons x xs ih =>
    intro a
    simp only [List.map_cons, List.foldl_cons, D.add, List.sum_cons]
    rw [ih (a + x)]
    ring_nf

/-- dSum over a buffer of numeric readings is the rational sum. -/
theorem dSum_map_num (l : List ℚ) : dSum (l.map D.num) = D.num l.sum := by
  simpa using foldl_dadd_map_num l 0

/-- When the refusal guard is down the divisor endOfIndex is at least 1. -/
theorem endOfIndex_pos_of_guard (s : SensorState) (h : refuseGuard s = false) :
    1 ≤ endOfIndexOf s := by
  unfold refuseGuard at h
  unfold endOfIndexOf
  rcases Bool.or_eq_false_iff.mp h with ⟨h1, _⟩
  cases hro : s.indexRolledOver with
  | true => simp [hro, ROLLING_AVERAGE_COUNT]
  | false =>
    simp only [hro, Bool.not_false, Bool.and_true, beq_eq_false_iff_ne] at h1
    simp only [hro, Bool.false_eq_true, if_false]
    omega

/-! ## C4: retry exhaustion -/

/-- C4: when no datagram ever arrives, the ACK listen loop terminates with
gotRDPServer still false and the inter-attempt delay doubles from the base
of 5 — but the `while (rdpAckRetries <= rdpMaxAckListenAttempts)` loop
performs rdpMaxAckListenAttempts + 1 = 11 failed listen attempts (retry
counter values 0 through 10 inclusive), one more than the configured
maximum of 10 that the claim states. -/
theorem ackListen_attempt_count_eleven :
    ackListen [] = (false, [5, 10, 20, 40, 80, 160, 320, 640, 1280, 2560, 5120])
      ∧ (ackListen []).2.length = rdpMaxAckListenAttempts + 1
      ∧ ¬(ackListen []).2.length = rdpMaxAckListenAttempts := by
  have h : ackListen [] = (false, [5, 10, 20, 40, 80, 160, 320, 640, 1280, 2560, 5120]) := by
    simp [ackListen, ackListenFrom, rdpMaxAckListenAttempts]
  refine ⟨h, ?_, ?_⟩ <;> rw [h] <;> simp [rdpMaxAckListenAttempts]

/-! ## C3: handshake datagram handling -/

/-- C3 counterexample: a malformed first datagram ends the listen loop at
once with gotRDPServer false (second conjunct: no delay was slept, i.e. the
loop did not keep listening), even though the very next poll would have
delivered a valid ACK — which on its own (third conjunct) would have
succeeded.  The claim's "the listen loop continues listening" is false. -/
theorem ackListen_stops_on_first_datagram_cex :
    (ackListen [some Datagram.malformed, some (Datagram.wellFormed RDPEventType_ACK)]).1 = false
      ∧ (ackListen [some Datagram.malformed, some (Datagram.wellFormed RDPEventType_ACK)]).2 = []
      ∧ (ackListen [some (Datagram.wellFormed RDPEventType_ACK)]).1 = true := by
  refine ⟨?_, ?_, ?_⟩ <;>
    simp [ackListen, ackListenFrom, rdpMaxAckListenAttempts, isAckDatagram, RDPEventType_ACK]

/-- The listen loop on j empty polls followed by a datagram: the datagram
alone decides gotRDPServer and the loop stops there, whatever follows. -/
theorem ackListenFrom_first_datagram (d : Datagram) : ∀ (j retries c : ℕ)
    (rest : List (Option Datagram)), retries + j ≤ rdpMaxAckListenAttempts →
    ackListenFrom retries c (List.replicate j none ++ some d :: rest)
      = (isAckDatagram d, (List.range j).map (fun i => c * 2 ^ i)) := by
  intro j
  induction j with
  | zero =>
    intro retries c rest h
    rw [ackListenFrom.eq_def]
    simp only [List.replicate_zero, List.nil_append]
    rw [dif_pos (by omega)]
    simp
  | succ j ih =>
    intro retries c rest h
    rw [List.replicate_succ, List.cons_append, ackListenFrom.eq_def]
    rw [dif_pos (by omega)]
    simp only
    rw [ih (retries + 1) (c + c) rest (by omega)]
    simp only [Prod.mk.injEq, true_and]
    rw [List.range_succ_eq_map, List.map_cons, List.map_map]
    simp only [pow_zero, mul_one, List.cons.injEq, true_and]
    apply List.map_congr_left
    intro i _
    simp only [Function.comp_apply, pow_succ]
    ring

/-- C3 (amended): during the handshake, the first received datagram decides
the outcome — gotRDPServer becomes true iff it is well-formed with first
event type RDPEventType_ACK — and the listen loop stops at that datagram:
the result and the delays slept (5·2^0 … 5·2^(j−1) for the j empty polls
before it) are independent of everything that arrives later. -/
theorem ackListen_first_datagram_decides (j : ℕ) (d : Datagram)
    (rest : List (Option Datagram)) (h : j ≤ rdpMaxAckListenAttempts) :
    ackListen (List.replicate j none ++ some d :: rest)
      = (isAckDatagram d, (List.range j).map (fun i => 5 * 2 ^ i)) :=
  ackListenFrom_first_datagram d j 0 5 rest (by omega)

/-- Witness for C3's theorem at j = 1 with a malformed datagram followed by
a valid ACK that is never read. -/
theorem ackListen_first_datagram_decides_witness :
    1 ≤ rdpMaxAckListenAttempts
      ∧ ackListen (List.replicate 1 none
            ++ some Datagram.malformed :: [some (Datagram.wellFormed RDPEventType_ACK)])
          = (false, [5]) := by
  refine ⟨by decide, ?_⟩
  have h := ackListen_first_datagram_decides 1 Datagram.malformed
    [some (Datagram.wellFormed RDPEventType_ACK)] (by decide)
  simpa [isAckDatagram] using h

/-! ## C6: refusal safety -/

/-- C6: when the buffer is empty (position 0, not rolled over) or the most
recent probe read failed, both revisions of broadcastReadings refuse: the
returned globals are exactly the input state (buffer, position, rollover,
epoch all untouched), no value is computed and no datagram is sent; and
whenever the guard is down the divisor endOfIndex is at least 1, so the
division by endOfIndex never divides by zero. -/
theorem broadcastReadings_refusal_no_effect :
    (∀ (net : Net) (s : SensorState),
        (s.rollingAveragePosition = 0 ∧ s.indexRolledOver = false) ∨ s.probeReadingError = true →
        broadcastReadings net s = ⟨s, none, []⟩ ∧ broadcastReadings_ino net s = ⟨s, none, []⟩)
      ∧ (∀ s : SensorState, refuseGuard s = false → 1 ≤ endOfIndexOf s) := by
  constructor
  · intro net s h
    have hg : refuseGuard s = true := by
      unfold refuseGuard
      rcases h with ⟨h0, h1⟩ | h2
      · simp [h0, h1]
      · simp [h2]
    constructor
    · unfold broadcastReadings
      rw [if_pos hg]
    · unfold broadcastReadings_ino
      rw [if_pos hg]
  · exact endOfIndex_pos_of_guard

/-- Witness for C6 on the boot state, which is empty. -/
theorem broadcastReadings_refusal_no_effect_witness :
    ((initialState.rollingAveragePosition = 0 ∧ initialState.indexRolledOver = false)
        ∨ initialState.probeReadingError = true)
      ∧ broadcastReadings netAllOk initialState = ⟨initialState, none, []⟩ :=
  ⟨Or.inl ⟨rfl, rfl⟩,
    (broadcastReadings_refusal_no_effect.1 netAllOk initialState (Or.inl ⟨rfl, rfl⟩)).1⟩

/-! ## C1: dual-destination sends -/

/-- C1 (code evaluated at the failing input): with three readings buffered,
no sensor error, WiFi connected and every transport call succeeding, the
broadcastReadings of WiFiTemperatureBroadcast.ino sends no datagram at all
when gotRDPServer is false, because its single send condition
`udp.beginPacket(..) == 1 && (gotRDPServer && rdpUdp.beginPacket(..) == 1)`
is false; the part_004 revision sends exactly the one primary datagram.
With gotRDPServer true both revisions send two datagrams when everything
succeeds, but a failing Roastmaster beginPacket suppresses the .ino's
primary send as well, while part_004 still delivers the primary one: the
.ino's destinations are not independent. -/
theorem ino_broadcast_sends_nothing_without_rdp_server :
    (broadcastReadings_ino netAllOk s22).sends = []
      ∧ (broadcastReadings netAllOk s22).sends = [⟨Dest.primary, D.num 22, true⟩]
      ∧ (broadcastReadings_ino netAllOk s22rdp).sends
          = [⟨Dest.primary, D.num 22, true⟩, ⟨Dest.rdp, D.num 22, true⟩]
      ∧ (broadcastReadings_ino netRdpBeginFail s22rdp).sends = []
      ∧ (broadcastReadings netRdpBeginFail s22rdp).sends = [⟨Dest.primary, D.num 22, true⟩] := by
  have hval : D.div (dSum (s22.celsiusRollingAverage.take (endOfIndexOf s22)))
      (D.num ((endOfIndexOf s22 : ℕ) : ℚ)) = D.num 22 := by
    have h1 : endOfIndexOf s22 = 3 := by
      simp [endOfIndexOf, s22, initialState]
    rw [h1]
    have h2 : s22.celsiusRollingAverage.take 3 = [20, 22, 24].map D.num := by
      simp [s22, initialState]
    rw [h2, dSum_map_num]
    simp [D.div]
    norm_num
  refine ⟨?_, ?_, ?_, ?_, ?_⟩ <;>
    simp [broadcastReadings, broadcastReadings_ino, refuseGuard, s22rdp, hval,
      netAllOk, netRdpBeginFail, s22, initialState] <;>
    simp [s22, initialState] at hval ⊢ <;> try exact hval

/-! ## C8: who resets the buffer -/

/-- C8 counterexample: a drain whose transmission fails entirely (WiFi not
connected, so not a single datagram leaves the device) still resets the
position to 0 and clears the rollover flag — contradicting the claim that
no failed broadcast both resets p and clears rolledOver. -/
theorem broadcast_send_failure_still_resets_cex :
    (broadcastReadings netDown s22).sends = []
      ∧ (broadcastReadings netDown s22).state.rollingAveragePosition = 0
      ∧ (broadcastReadings netDown s22).state.indexRolledOver = false
      ∧ ¬s22.rollingAveragePosition = 0 := by
  refine ⟨?_, ?_, ?_, ?_⟩ <;>
    simp [broadcastReadings, refuseGuard, netDown, s22, initialState]

/-- C8 (amended): the position/rollover pair is reset only by a drain that
passes the data-availability guard: a refused broadcastReadings (either
revision) leaves the globals exactly as they were; every guard-passing
drain resets the pair, whatever the transport outcomes (so a drain whose
sends subsequently fail still resets it); and an acquisition tick never
produces the reset pair — if position and rollover were not already
(0, false), they are not (0, false) after readProbes. -/
theorem buffer_reset_only_by_drain :
    (∀ (net : Net) (s : SensorState), refuseGuard s = true →
        (broadcastReadings net s).state = s ∧ (broadcastReadings_ino net s).state = s)
      ∧ (∀ (net : Net) (s : SensorState), refuseGuard s = false →
          (broadcastReadings net s).state.rollingAveragePosition = 0
            ∧ (broadcastReadings net s).state.indexRolledOver = false
            ∧ (broadcastReadings_ino net s).state.rollingAveragePosition = 0
            ∧ (broadcastReadings_ino net s).state.indexRolledOver = false)
      ∧ (∀ (e : ℚ → ℚ) (i c : D) (s : SensorState),
          ¬(s.rollingAveragePosition = 0 ∧ s.indexRolledOver = false) →
          ¬((readProbes e i c s).rollingAveragePosition = 0
              ∧ (readProbes e i c s).indexRolledOver = false)) := by
  refine ⟨?_, ?_, ?_⟩
  · intro net s h
    constructor
    · unfold broadcastReadings; rw [if_pos h]
    · unfold broadcastReadings_ino; rw [if_pos h]
  · intro net s h
    unfold broadcastReadings broadcastReadings_ino
    rw [if_neg (by simp [h]), if_neg (by simp [h])]
    simp
  · intro e i c s h
    unfold readProbes
    by_cases hn : (i.isNan || c.isNan) = true
    · simp only [hn, if_true]
      simpa using h
    · simp only [hn, if_false]
      by_cases hp : ROLLING_AVERAGE_COUNT ≤ s.rollingAveragePosition
      · simp [hp]
      · simp [hp]

/-- Witness for C8's theorem: a rolled-over state at position 0 is not the
reset pair, and an acquisition tick (here a failed read) does not turn it
into the reset pair. -/
theorem buffer_reset_only_by_drain_witness :
    ¬(({ initialState with indexRolledOver := true } : SensorState).rollingAveragePosition = 0
        ∧ ({ initialState with indexRolledOver := true } : SensorState).indexRolledOver = false)
      ∧ ¬((readProbes (fun _ => 0) D.nan D.nan
              { initialState with indexRolledOver := true }).rollingAveragePosition = 0
            ∧ (readProbes (fun _ => 0) D.nan D.nan
                { initialState with indexRolledOver := true }).indexRolledOver = false) := by
  refine ⟨by simp, ?_⟩
  exact buffer_reset_only_by_drain.2.2 (fun _ => 0) D.nan D.nan
    { initialState with indexRolledOver := true } (by simp)

/-! ## C2: drain average -/

/-- C2: for any state that passes the guard (at least one reading, no
pending sensor error) and whose buffer holds numeric readings qs,
broadcastReadings computes the broadcast value as the arithmetic mean of
qs over [0, ROLLING_AVERAGE_COUNT) when rolled over and over [0, position)
otherwise, and resets position to 0 and the rollover flag to false; in
particular draining the state holding exactly 20, 22, 24 yields 22. -/
theorem broadcastReadings_drain_average_and_reset :
    (∀ (net : Net) (s : SensorState) (qs : List ℚ),
        s.celsiusRollingAverage = qs.map D.num →
        refuseGuard s = false →
        (broadcastReadings net s).value
            = some (D.num ((qs.take (endOfIndexOf s)).sum / (endOfIndexOf s : ℚ)))
          ∧ (broadcastReadings net s).state.rollingAveragePosition = 0
          ∧ (broadcastReadings net s).state.indexRolledOver = false)
      ∧ (broadcastReadings netAllOk s22).value = some (D.num 22)
      ∧ (broadcastReadings netAllOk s22).state.rollingAveragePosition = 0
      ∧ (broadcastReadings netAllOk s22).state.indexRolledOver = false := by
  have main : ∀ (net : Net) (s : SensorState) (qs : List ℚ),
      s.celsiusRollingAverage = qs.map D.num →
      refuseGuard s = false →
      (broadcastReadings net s).value
          = some (D.num ((qs.take (endOfIndexOf s)).sum / (endOfIndexOf s : ℚ)))
        ∧ (broadcastReadings net s).state.rollingAveragePosition = 0
        ∧ (broadcastReadings net s).state.indexRolledOver = false := by
    intro net s qs hbuf hg
    have heoi : 1 ≤ endOfIndexOf s := endOfIndex_pos_of_guard s hg
    unfold broadcastReadings
    rw [if_neg (by simp [hg])]
    refine ⟨?_, rfl, rfl⟩
    simp only [Option.some.injEq]
    rw [hbuf, ← List.map_take, dSum_map_num, D.div]
    rw [if_neg (by exact_mod_cast Nat.one_le_iff_ne_zero.mp heoi)]
  refine ⟨main, ?_⟩
  have h22 := main netAllOk s22 ([20, 22, 24] ++ List.replicate 17 0) (by simp [s22]) (by rfl)
  have heoi : endOfIndexOf s22 = 3 := by simp [endOfIndexOf, s22, initialState]
  rw [heoi] at h22
  refine ⟨?_, h22.2.1, h22.2.2⟩
  rw [h22.1]
  norm_num

/-- Witness for C2's theorem at the 20/22/24 state. -/
theorem broadcastReadings_drain_average_and_reset_witness :
    s22.celsiusRollingAverage = (([20, 22, 24] ++ List.replicate 17 0 : List ℚ)).map D.num
      ∧ refuseGuard s22 = false
      ∧ (broadcastReadings netAllOk s22).value
          = some (D.num (((([20, 22, 24] ++ List.replicate 17 0 : List ℚ)).take
              (endOfIndexOf s22)).sum / (endOfIndexOf s22 : ℚ))) :=
  ⟨by simp [s22], rfl,
    (broadcastReadings_drain_average_and_reset.1 netAllOk s22
      ([20, 22, 24] ++ List.replicate 17 0) (by simp [s22]) rfl).1⟩

/-! ## C5: position range and rollover -/

/-- Position/rollover effect of one valid (non-NaN) acquisition tick. -/
theorem readProbes_valid_pos (e : ℚ → ℚ) (a b : ℚ) (s : SensorState) :
    (readProbes e (D.num a) (D.num b) s).rollingAveragePosition
        = (if ROLLING_AVERAGE_COUNT ≤ s.rollingAveragePosition then 0
           else s.rollingAveragePosition) + 1
      ∧ ((readProbes e (D.num a) (D.num b) s).indexRolledOver = true ↔
          (s.indexRolledOver = true ∨ ROLLING_AVERAGE_COUNT ≤ s.rollingAveragePosition)) := by
  unfold readProbes
  simp only [D.isNan, Bool.or_self, if_false]
  by_cases hp : ROLLING_AVERAGE_COUNT ≤ s.rollingAveragePosition
  · simp [hp]
  · simp [hp]

/-- Exact position and rollover after k valid pushes from a drained state:
the position is ((k−1) mod 20) + 1 for k ≥ 1, and the rollover flag is up
exactly when more than 20 pushes happened. -/
theorem pushIter_pos_rollover (e : ℚ → ℚ) (f : ℕ → ℚ × ℚ) (s0 : SensorState)
    (h0 : s0.rollingAveragePosition = 0) (h1 : s0.indexRolledOver = false) :
    ∀ k : ℕ,
      (pushIter e f k s0).rollingAveragePosition
          = (if k = 0 then 0 else (k - 1) % ROLLING_AVERAGE_COUNT + 1)
        ∧ ((pushIter e f k s0).indexRolledOver = true ↔ ROLLING_AVERAGE_COUNT < k) := by
  intro k
  induction k with
  | zero => simpa [pushIter] using ⟨h0, by simp [h1]⟩
  | succ k ih =>
    rcases ih with ⟨ihp, ihr⟩
    rcases readProbes_valid_pos e (f k).1 (f k).2 (pushIter e f k s0) with ⟨hsp, hsr⟩
    have hiter : pushIter e f (k + 1) s0
        = readProbes e (D.num (f k).1) (D.num (f k).2) (pushIter e f k s0) := rfl
    rw [hiter]
    constructor
    · rw [hsp, ihp]
      simp only [ROLLING_AVERAGE_COUNT]
      by_cases hk : k = 0
      · subst hk
        norm_num
      · rw [if_neg hk, if_neg (Nat.succ_ne_zero k)]
        simp only [Nat.succ_sub_one]
        split_ifs <;> omega
    · rw [hsr, ihr, ihp]
      simp only [ROLLING_AVERAGE_COUNT]
      by_cases hk : k = 0
      · subst hk
        norm_num
      · rw [if_neg hk]
        omega

/-- C5 (amended): over any run of valid acquisition ticks with no drain in
between, starting from a drained accumulator, the position stays within
[0, ROLLING_AVERAGE_COUNT] — it reaches the capacity itself after exactly
ROLLING_AVERAGE_COUNT pushes — and the rollover flag is up exactly when
more than ROLLING_AVERAGE_COUNT pushes have happened. -/
theorem push_position_bound_and_rollover (e : ℚ → ℚ) (f : ℕ → ℚ × ℚ)
    (s0 : SensorState) (h0 : s0.rollingAveragePosition = 0)
    (h1 : s0.indexRolledOver = false) (k : ℕ) :
    (pushIter e f k s0).rollingAveragePosition ≤ ROLLING_AVERAGE_COUNT
      ∧ ((pushIter e f k s0).indexRolledOver = true ↔ ROLLING_AVERAGE_COUNT < k) := by
  rcases pushIter_pos_rollover e f s0 h0 h1 k with ⟨hp, hr⟩
  refine ⟨?_, hr⟩
  rw [hp]
  simp only [ROLLING_AVERAGE_COUNT]
  split_ifs <;> omega

/-- Witness for C5's theorem after five pushes from the boot state. -/
theorem push_position_bound_and_rollover_witness :
    initialState.rollingAveragePosition = 0
      ∧ initialState.indexRolledOver = false
      ∧ (pushIter (fun _ => 0) (fun _ => (25, 30)) 5 initialState).rollingAveragePosition
          ≤ ROLLING_AVERAGE_COUNT :=
  ⟨rfl, rfl,
    (push_position_bound_and_rollover (fun _ => 0) (fun _ => (25, 30))
      initialState rfl rfl 5).1⟩

/-- C5 counterexample: after exactly 20 valid pushes from the boot state
the write position equals ROLLING_AVERAGE_COUNT = 20, which is outside
[0, ROLLING_AVERAGE_COUNT): the claimed strict bound fails. -/
theorem push_position_reaches_capacity_cex :
    (pushIter (fun _ => 0) (fun _ => (25, 30)) 20 initialState).rollingAveragePosition
        = ROLLING_AVERAGE_COUNT
      ∧ ¬((pushIter (fun _ => 0) (fun _ => (25, 30)) 20 initialState).rollingAveragePosition
            < ROLLING_AVERAGE_COUNT) := by
  have h := (pushIter_pos_rollover (fun _ => 0) (fun _ => (25, 30)) initialState rfl rfl 20).1
  rw [h]
  simp [ROLLING_AVERAGE_COUNT]

/-! ## C9: inversion range selection -/

/-- C9 (code evaluated at the failing input): at Tc = −10 °C, Tr = −250 °C
the summed voltage is below −5.891 mV, the type-K table's lower limit
(−200 °C); the claim — and the final else branch's own comment — call for
the out-of-range sentinel there, but lineariseTemperature checks only the
upper bound and returns the below-0-mV polynomial's value as if it were a
temperature.  (The cold junction is negative, so the exponential term is
not involved and any e gives the same result.) -/
theorem linearise_below_range_returns_value :
    totalVoltage (fun _ => 0) (-10) (-250) < -5.891
      ∧ (lineariseTemperature (fun _ => 0) (-10) (-250)).isNan = false := by
  have hv : totalVoltage (fun _ => 0) (-10) (-250) < -5.891 := by
    norm_num [totalVoltage, thermocoupleVoltage, internalVoltage, polyEval, polyEvalFrom, cNeg]
  have hv0 : totalVoltage (fun _ => 0) (-10) (-250) < 0 := by linarith
  refine ⟨hv, ?_⟩
  unfold lineariseTemperature invertVoltage
  rw [if_pos hv0]
  rfl

/-! ## C10: the sentinel is stored unchecked -/

/-- C10: a valid (non-NaN) reading pair Tc = 25 °C, Tr = 1500 °C drives the
summed voltage past 54.886 mV for every nonnegative exponential, so
lineariseTemperature returns the NaN sentinel; readProbes records no sensor
error for the tick yet stores the NaN in the buffer, and the next drain
computes a NaN broadcast value. -/
theorem nan_sentinel_pushed_and_averaged (e : ℚ → ℚ) (he : ∀ x : ℚ, 0 ≤ e x) :
    (54.886 : ℚ) ≤ totalVoltage e 25 1500
      ∧ (readProbes e (D.num 25) (D.num 1500) initialState).probeReadingError = false
      ∧ (readProbes e (D.num 25) (D.num 1500) initialState).celsiusRollingAverage.getD 0 (D.num 0)
          = D.nan
      ∧ (readProbes e (D.num 25) (D.num 1500) initialState).rollingAveragePosition = 1
      ∧ (broadcastReadings netAllOk
            (readProbes e (D.num 25) (D.num 1500) initialState)).value = some D.nan := by
  have hexp : 0 ≤ a0 * e (a1 * ((25 : ℚ) - a2) ^ 2) :=
    mul_nonneg (by norm_num [a0]) (he _)
  have hbase : (54.886 : ℚ) ≤ thermocoupleVoltage 25 1500 + polyEval cPos 25 := by
    norm_num [thermocoupleVoltage, polyEval, polyEvalFrom, cPos]
  have htot : (54.886 : ℚ) ≤ totalVoltage e 25 1500 := by
    unfold totalVoltage internalVoltage
    rw [if_pos (by norm_num)]
    linarith
  have hnan : lineariseTemperature e 25 1500 = D.nan := by
    unfold lineariseTemperature invertVoltage
    rw [if_neg (by linarith), if_neg (by linarith), if_neg (by linarith)]
  have hread : readProbes e (D.num 25) (D.num 1500) initialState
      = { initialState with
            minimumInternal := 25
            maximumInternal := 25
            celsiusRollingAverage := D.nan :: List.replicate 19 (D.num 0)
            rollingAveragePosition := 1 } := by
    unfold readProbes
    simp only [D.isNan, Bool.or_self, if_false, D.toQ]
    rw [if_neg (by simp [initialState, ROLLING_AVERAGE_COUNT])]
    simp [initialState, DBL_MAX, DBL_MIN, ROLLING_AVERAGE_COUNT, hnan, List.replicate_succ]
    norm_num
  refine ⟨htot, by rw [hread]; try rfl, by rw [hread]; try rfl, by rw [hread]; try rfl, ?_⟩
  rw [hread]
  unfold broadcastReadings
  rw [if_neg (by simp [refuseGuard, initialState])]
  simp only
  rw [show endOfIndexOf { initialState with
          minimumInternal := 25
          maximumInternal := 25
          celsiusRollingAverage := D.nan :: List.replicate 19 (D.num 0)
          rollingAveragePosition := 1 } = 1 from by simp [endOfIndexOf, initialState]]
  simp [dSum, D.add, D.div]

/-- Witness for C10's theorem with the identically-zero exponential. -/
theorem nan_sentinel_pushed_and_averaged_witness :
    (∀ x : ℚ, 0 ≤ (fun _ : ℚ => (0 : ℚ)) x)
      ∧ (broadcastReadings netAllOk
            (readProbes (fun _ : ℚ => (0 : ℚ)) (D.num 25) (D.num 1500) initialState)).value
          = some D.nan :=
  ⟨fun _ => le_rfl,
    (nan_sentinel_pushed_and_averaged (fun _ => 0) (fun _ => le_rfl)).2.2.2.2⟩

/-! ## C7: broadcast idempotence per acquisition cycle -/

/-- checkForCommandAndControlMessage touches haveBroadcastSinceRead only
for a readProbes command. -/
theorem checkCnC_have (c : Option Cmd) (s : SensorState) (h : c ≠ some Cmd.cmdRead) :
    (checkCnC c s).haveBroadcastSinceRead = s.haveBroadcastSinceRead := by
  cases c with
  | none => rfl
  | some cmd =>
    cases cmd with
    | cmdRead => exact absurd rfl h
    | cmdBroadcast => rfl
    | cmdOther => rfl

/-- readProbes never touches haveBroadcastSinceRead. -/
theorem readProbes_keeps_have (e : ℚ → ℚ) (i c : D) (s : SensorState) :
    (readProbes e i c s).haveBroadcastSinceRead = s.haveBroadcastSinceRead := by
  unfold readProbes
  by_cases hn : (i.isNan || c.isNan) = true
  · simp [hn]
  · simp only [hn, if_false]
    by_cases hp : ROLLING_AVERAGE_COUNT ≤ s.rollingAveragePosition
    · simp [hp]
    · simp [hp]

/-- An iteration that invoked broadcastReadings latches the
broadcast-done flag. -/
theorem loopStep_did_sets_have (e : ℚ → ℚ) (inp : LoopInput) (s : SensorState)
    (h : (loopStep e inp s).2 = true) :
    (loopStep e inp s).1.haveBroadcastSinceRead = true := by
  unfold loopStep at *
  by_cases hb : ((checkCnC inp.cmd s).shouldBroadcast
      && !(checkCnC inp.cmd s).haveBroadcastSinceRead) = true
  · simp [hb]
  · simp [hb] at h

/-- Once the broadcast-done flag is up, any iteration whose command is not
readProbes invokes no broadcast and keeps the flag up. -/
theorem loopStep_have_blocks (e : ℚ → ℚ) (inp : LoopInput) (s : SensorState)
    (hh : s.haveBroadcastSinceRead = true) (hc : inp.cmd ≠ some Cmd.cmdRead) :
    (loopStep e inp s).2 = false
      ∧ (loopStep e inp s).1.haveBroadcastSinceRead = true := by
  have h1 : (checkCnC inp.cmd s).haveBroadcastSinceRead = true := by
    rw [checkCnC_have inp.cmd s hc]; exact hh
  refine ⟨by simp [loopStep, h1], ?_⟩
  by_cases hr : (checkCnC inp.cmd s).shouldReadProbes = true
  · simp [loopStep, h1, hr, readProbes_keeps_have]
  · simp [loopStep, h1, hr]

/-- loopRun of an appended run decomposes sequentially. -/
theorem loopRun_append (e : ℚ → ℚ) (l1 l2 : List LoopInput) (s : SensorState) :
    loopRun e (l1 ++ l2) s
      = ((loopRun e l2 (loopRun e l1 s).1).1,
         (loopRun e l1 s).2 ++ (loopRun e l2 (loopRun e l1 s).1).2) := by
  induction l1 generalizing s with
  | nil => simp [loopRun]
  | cons inp rest ih =>
    simp only [List.cons_append, loopRun, List.append_eq]
    rw [ih (loopStep e inp s).1]

/-- One broadcast flag per iteration. -/
theorem loopRun_length (e : ℚ → ℚ) : ∀ (inputs : List LoopInput) (s : SensorState),
    (loopRun e inputs s).2.length = inputs.length := by
  intro inputs
  induction inputs with
  | nil => intro s; rfl
  | cons inp rest ih => intro s; simp [loopRun, ih]

/-- getD at the length of the left part of an append picks the middle
element. -/
theorem getD_append_mid {α : Type} (l1 l2 : List α) (a d : α) :
    (l1 ++ a :: l2).getD l1.length d = a := by
  induction l1 with
  | nil => rfl
  | cons x xs ih => simpa using ih

/-- getD below the length of the left part of an append stays in it. -/
theorem getD_append_lt {α : Type} (l1 l2 : List α) (d : α) (k : ℕ) (h : k < l1.length) :
    (l1 ++ l2).getD k d = l1.getD k d := by
  induction l1 generalizing k with
  | nil => exact absurd h (Nat.not_lt_zero k)
  | cons x xs ih =>
    cases k with
    | zero => rfl
    | succ k => simpa using ih k (by simpa using h)

/-- getD below the length is a member. -/
theorem getD_mem_of_lt {α : Type} (l : List α) (d : α) (k : ℕ) (h : k < l.length) :
    l.getD k d ∈ l := by
  induction l generalizing k with
  | nil => exact absurd h (Nat.not_lt_zero k)
  | cons x xs ih =>
    cases k with
    | zero => exact List.mem_cons_self x xs
    | succ k =>
      exact List.mem_cons_of_mem x (by simpa using ih k (by simpa using h))

/-- If an iteration of a run that starts with the broadcast-done flag up
invokes a broadcast, then some iteration up to and including it carried a
readProbes command. -/
theorem loopRun_read_cmd_of_did (e : ℚ → ℚ) :
    ∀ (inputs : List LoopInput) (s : SensorState), s.haveBroadcastSinceRead = true →
      ∀ j : ℕ, (loopRun e inputs s).2.getD j false = true →
        ∃ k : ℕ, k ≤ j ∧ (inputs.getD k noInput).cmd = some Cmd.cmdRead := by
  intro inputs
  induction inputs with
  | nil => intro s _ j h; simp [loopRun] at h
  | cons inp rest ih =>
    intro s hs j h
    by_cases hc : inp.cmd = some Cmd.cmdRead
    · exact ⟨0, Nat.zero_le j, by simpa using hc⟩
    · rcases loopStep_have_blocks e inp s hs hc with ⟨hd, hh⟩
      have hcons : (loopRun e (inp :: rest) s).2
          = (loopStep e inp s).2 :: (loopRun e rest (loopStep e inp s).1).2 := rfl
      rw [hcons] at h
      cases j with
      | zero => simp [hd] at h
      | succ j =>
        simp only [List.getD_cons_succ] at h
        rcases ih (loopStep e inp s).1 hh j h with ⟨k, hk, hcmd⟩
        exact ⟨k + 1, by omega, by simpa using hcmd⟩

/-- C7: (1) with the broadcast-done flag down, an iteration carrying the
broadcastReadings command invokes exactly one broadcast and latches the
flag; (2) in any run, two broadcast-invoking iterations are always
separated by an iteration carrying the readProbes command (possibly the
second iteration itself would carry it, but then it would not broadcast):
broadcastReadings never runs twice without an intervening start-acquiring
event. -/
theorem loop_broadcast_idempotent_per_acquire :
    (∀ (e : ℚ → ℚ) (inp : LoopInput) (s : SensorState),
        s.haveBroadcastSinceRead = false → inp.cmd = some Cmd.cmdBroadcast →
        (loopStep e inp s).2 = true
          ∧ (loopStep e inp s).1.haveBroadcastSinceRead = true)
      ∧ (∀ (e : ℚ → ℚ) (s0 : SensorState) (pre mid post : List LoopInput)
            (x y : LoopInput) (da db dc : List Bool),
          (loopRun e (pre ++ x :: (mid ++ y :: post)) s0).2
              = da ++ true :: (db ++ true :: dc) →
          da.length = pre.length → db.length = mid.length →
          (∃ inp ∈ mid, inp.cmd = some Cmd.cmdRead) ∨ y.cmd = some Cmd.cmdRead) := by
  constructor
  · intro e inp s hh hc
    constructor
    · simp [loopStep, checkCnC, hc, hh]
    · simp [loopStep, checkCnC, hc, hh]
  · intro e s0 pre mid post x y da db dc hrun hlen1 hlen2
    rw [loopRun_append e pre (x :: (mid ++ y :: post)) s0] at hrun
    simp only at hrun
    have hcons : (loopRun e (x :: (mid ++ y :: post)) (loopRun e pre s0).1).2
        = (loopStep e x (loopRun e pre s0).1).2
          :: (loopRun e (mid ++ y :: post) (loopStep e x (loopRun e pre s0).1).1).2 := rfl
    rw [hcons] at hrun
    have hlenPre : (loopRun e pre s0).2.length = da.length := by
      rw [loopRun_length]; omega
    obtain ⟨hpre_eq, htail⟩ := List.append_inj hrun hlenPre
    obtain ⟨hx, hrest⟩ := List.cons_eq_cons.mp htail
    have hhave : (loopStep e x (loopRun e pre s0).1).1.haveBroadcastSinceRead = true :=
      loopStep_did_sets_have e x (loopRun e pre s0).1 hx
    have hdid : (loopRun e (mid ++ y :: post)
        (loopStep e x (loopRun e pre s0).1).1).2.getD db.length false = true := by
      rw [hrest]
      exact getD_append_mid db dc true false
    rcases loopRun_read_cmd_of_did e (mid ++ y :: post)
        (loopStep e x (loopRun e pre s0).1).1 hhave db.length hdid with ⟨k, hk, hcmd⟩
    by_cases hklt : k < mid.length
    · left
      refine ⟨mid.getD k noInput, getD_mem_of_lt mid noInput k hklt, ?_⟩
      rw [← getD_append_lt mid (y :: post) noInput k hklt]
      exact hcmd
    · right
      have hkeq : k = mid.length := by omega
      rw [hkeq, getD_append_mid mid post y noInput] at hcmd
      exact hcmd

/-- Witness for C7's theorem: the run read, broadcast, read, broadcast has
broadcast flags false, true, false, true, and the intervening segment
contains the readProbes command. -/
theorem loop_broadcast_idempotent_per_acquire_witness :
    (loopRun (fun _ => 0) ([iRead] ++ iB :: ([iRead] ++ iB :: [])) initialState).2
        = [false] ++ true :: ([false] ++ true :: [])
      ∧ ([false] : List Bool).length = [iRead].length
      ∧ ((∃ inp ∈ [iRead], inp.cmd = some Cmd.cmdRead) ∨ iB.cmd = some Cmd.cmdRead) := by
  have hrun : (loopRun (fun _ => 0) ([iRead] ++ iB :: ([iRead] ++ iB :: [])) initialState).2
      = [false] ++ true :: ([false] ++ true :: []) := by
    simp [loopRun, loopStep, checkCnC, iRead, iB, readProbes, broadcastReadings,
      refuseGuard, initialState, D.isNan, noInput, netAllOk]
  refine ⟨hrun, rfl, ?_⟩
  exact loop_broadcast_idempotent_per_acquire.2 (fun _ => 0) initialState
    [iRead] [iRead] [] iB iB [false] [false] [] hrun rfl rfl
